import Mathlib

/-!
Verification development for the robotics task-sequencer system framework.
The repository ships its test suite; the core modules (`tasqsym.core.common`,
`tasqsym.core.interface`, `tasqsym.core.classes`, `tasqsym.core.bt_decoder`)
are not part of the source tree, so the definitions below are modelled from
the specification document, faithful to its wording, and checked against the
behaviours the shipped tests expect.
-/

namespace Tasqsym

/-- Modelled from the spec: outcome flags of the uniform Status value
(`tasqsym.core.common.constants.StatusFlags`, module absent from the tree).
Taxonomy of section 7: SUCCESS; FAILED; ABORTED; UNEXPECTED; SKIPPED;
ESCAPED; UNKNOWN (sentinel default). -/
inductive StatusFlags where
  | SUCCESS
  | FAILED
  | ABORTED
  | UNEXPECTED
  | SKIPPED
  | ESCAPED
  | UNKNOWN
deriving DecidableEq, Repr

/-- Modelled from the spec: enumerated reason codes of a Status
(`tasqsym.core.common.constants.StatusReason`, module absent from the tree).
The reasons named by the repository are NONE, SUCCESSFUL_TERMINATION,
CONNECTION_ERROR, PROCESS_FAILURE and OTHER. -/
inductive StatusReason where
  | NONE
  | SUCCESSFUL_TERMINATION
  | CONNECTION_ERROR
  | PROCESS_FAILURE
  | OTHER
deriving DecidableEq, Repr

/-- Modelled from the spec: the uniform result value
(`tasqsym.core.common.structs.Status`, module absent from the tree):
outcome + reason + message, default reason NONE, default message empty. -/
structure Status where
  status : StatusFlags
  reason : StatusReason := StatusReason.NONE
  message : String := ""
deriving DecidableEq, Repr

/-- Modelled from the spec: solve-by tags naming the target engine of an
action variant (`tasqsym.core.common.constants.SolveByType`, module absent
from the tree). -/
inductive SolveByType where
  | FORWARD_KINEMATICS
  | INVERSE_KINEMATICS
  | NAVIGATION3D
  | POINT_TO_IK
  | CONTROL_COMMAND
  | NULL_ACTION
deriving DecidableEq, Repr

/-- Modelled from the spec: sensor roles
(`tasqsym.core.common.constants.SensorRole`, module absent from the tree).
The spec groups them into force/torque-capable and vision-capable. -/
inductive SensorRole where
  | CAMERA_3D
  | FORCE_6D
deriving DecidableEq, Repr

/-- Modelled from the spec: whether a sensor role belongs to the
force/torque-capable category queried through getPhysicsState. -/
def SensorRole.forceTorqueCapable : SensorRole → Bool
  | SensorRole.FORCE_6D => true
  | SensorRole.CAMERA_3D => false

/-- Modelled from the spec: whether a sensor role belongs to the
vision-capable category queried through getSceneryState. -/
def SensorRole.visionCapable : SensorRole → Bool
  | SensorRole.FORCE_6D => false
  | SensorRole.CAMERA_3D => true

/-- Modelled from the spec: 3D point of a Pose
(`tasqsym.core.common.structs.Point`, module absent from the tree).
Coordinates are modelled as rationals; no claim computes with them. -/
structure Point where
  x : ℚ
  y : ℚ
  z : ℚ
deriving DecidableEq, Repr

/-- Modelled from the spec: quaternion orientation of a Pose
(`tasqsym.core.common.structs.Quaternion`, module absent from the tree). -/
structure Quaternion where
  x : ℚ
  y : ℚ
  z : ℚ
  w : ℚ
deriving DecidableEq, Repr

/-- Modelled from the spec: Pose = position + orientation
(`tasqsym.core.common.structs.Pose`, module absent from the tree). -/
structure Pose where
  position : Point
  orientation : Quaternion
deriving DecidableEq, Repr

/-- Modelled from the spec: RobotState = base_state Pose, status Status,
optional timesec (`tasqsym.core.common.structs.RobotState`, module absent
from the tree). The constructor's status argument defaults to a SUCCESS
Status and timesec defaults to null. -/
structure RobotState where
  base_state : Pose
  status : Status := { status := StatusFlags.SUCCESS }
  timesec : Option ℚ := none
deriving DecidableEq, Repr

/-- Modelled from the spec: the RobotState constructor with Python default
arguments: `RobotState(base_state, status=Status(SUCCESS), timesec=None)`. -/
def RobotState.construct (base : Pose)
    (status : Status := { status := StatusFlags.SUCCESS })
    (timesec : Option ℚ := none) : RobotState :=
  { base_state := base, status := status, timesec := timesec }

/-- Helper: first value bound to a key in an association list (models a
Python dict lookup). -/
def findValue {β : Type} : List (String × β) → String → Option β
  | [], _ => none
  | (k, v) :: rest, key => if k = key then some v else findValue rest key

/-- Modelled from the spec: Blackboard
(`tasqsym.core.interface.blackboard.Blackboard`, module absent from the
tree): a shared map string→value for one task run. The stored values are
dynamically typed in Python, modelled by a type parameter. -/
structure Blackboard (α : Type) where
  board : List (String × α) := []
deriving DecidableEq, Repr

/-- Modelled from the spec: `setBoardVariable(key, value)`: no-op + log if
key is the empty string, else insert/overwrite. -/
def Blackboard.setBoardVariable {α : Type} (b : Blackboard α) (key : String)
    (value : α) : Blackboard α :=
  if key = "" then b
  else { board := (key, value) :: b.board.filter (fun p => p.1 ≠ key) }

/-- Modelled from the spec: `getBoardVariable(key)`: returns the stored
value, or null + log "unknown variable" when the key is absent. -/
def Blackboard.getBoardVariable {α : Type} (b : Blackboard α) (key : String) :
    Option α :=
  findValue b.board key

/-- Modelled from the spec: `clearBoard()`: empties all entries. -/
def Blackboard.clearBoard {α : Type} (_ : Blackboard α) : Blackboard α :=
  { board := [] }

/-- Modelled from the spec: generic dynamic values held by the Data struct
(`tasqsym.core.common.structs.Data`, module absent from the tree). -/
inductive DataValue where
  | str (s : String)
  | int (n : Int)
  | dict (entries : List (String × String))
deriving DecidableEq, Repr

/-- Modelled from the spec: attribute-name normalisation performed by the
Data constructor: a leading "@" character is stripped from a dictionary
key; keys without one keep their name unchanged. -/
def stripAtKey (k : String) : String :=
  if k.data.head? = some '@' then { data := k.data.tail } else k

/-- Modelled from the spec: the Data struct
(`tasqsym.core.common.structs.Data`, module absent from the tree): each
dictionary key becomes an attribute holding the corresponding value. -/
structure Data where
  attrs : List (String × DataValue)
deriving DecidableEq, Repr

/-- Modelled from the spec: the Data constructor iterates the given
dictionary, setting one attribute per key with a leading "@" stripped;
a later duplicate attribute assignment overwrites an earlier one. -/
def Data.ofDict (d : List (String × DataValue)) : Data :=
  { attrs := d.map (fun p => (stripAtKey p.1, p.2)) }

/-- Modelled from the spec: Python attribute read on a Data object: the
value of the last assignment to that attribute name, if any. -/
def Data.getattr (d : Data) (a : String) : Option DataValue :=
  findValue d.attrs.reverse a

/-- Modelled from the spec: robot roles
(`tasqsym.core.common.constants.RobotRole`, module absent from the tree). -/
inductive RobotRole where
  | MANIPULATOR
  | END_EFFECTOR
deriving DecidableEq, Repr

/-- Modelled from the spec: CombinedRobotState = map robot_id → RobotState
(`tasqsym.core.common.structs.CombinedRobotState`, module absent from the
tree). -/
structure CombinedRobotState where
  robot_states : List (String × RobotState)
deriving DecidableEq, Repr

/-- Modelled from the spec: a connected robot owned by a controller engine
(`tasqsym.core.classes.physical_robot.PhysicalRobot`, module absent from
the tree). The Status its asynchronous emergencyStop() call reports is
recorded as a field, as each robot is stopped at most once per aggregate
call. -/
structure PhysicalRobot where
  unique_id : String
  parent_id : String := ""
  parent_link : String := ""
  role : RobotRole
  emergencyStop : Status
deriving DecidableEq, Repr

/-- Modelled from the spec: a connected sensor owned by a controller engine
(`tasqsym.core.classes.physical_sensor.PhysicalSensor`, module absent from
the tree): a role plus its own getPhysicsState/getSceneryState behaviours,
each mapping (cmd, extra) to the sensor's own Status and data. -/
structure PhysicalSensor (α : Type) where
  role : SensorRole
  getPhysicsState : String → Option α → Status × Option α
  getSceneryState : String → Option α → Status × Option α

/-- Modelled from the spec: the roster fields of ControllerEngineBase
(`tasqsym.core.classes.engine_base.ControllerEngineBase`, module absent
from the tree): control_task, emergency_stop_request, latest_robot_state,
robots map, sensors map, control_in_simulated_world. -/
structure ControllerEngineBase (α : Type) where
  class_id : String
  control_task : Option String := none
  emergency_stop_request : Bool := false
  latest_robot_state : Option CombinedRobotState := none
  robots : List (String × PhysicalRobot) := []
  sensors : List (String × PhysicalSensor α) := []
  control_in_simulated_world : Bool := false

/-- Modelled from the spec: the aggregation loop of
`ControllerEngineBase.emergencyStop()`: every owned robot's emergencyStop()
is awaited in roster order; the first FAILED/ABORTED sub-result
short-circuits the aggregation (it becomes the overall result, reason and
message preserved) while the remaining robots are still stopped. Returns
the aggregate Status together with the ids invoked, in order. -/
def emergencyStopLoop : List (String × PhysicalRobot) → Status × List String
  | [] => ({ status := StatusFlags.SUCCESS }, [])
  | (id, robot) :: rest =>
    let sub := robot.emergencyStop
    let restResult := emergencyStopLoop rest
    (if sub.status = StatusFlags.SUCCESS then restResult.1 else sub,
     id :: restResult.2)

/-- Modelled from the spec: `ControllerEngineBase.emergencyStop()` calls
emergencyStop() on every robot, aggregated per section 4.1. -/
def ControllerEngineBase.emergencyStop {α : Type} (e : ControllerEngineBase α) :
    Status × List String :=
  emergencyStopLoop e.robots

/-- Modelled from the spec: `ControllerEngineBase.getLatestRobotStates()`
returns the cache last written by the actual-state refresh. -/
def ControllerEngineBase.getLatestRobotStates {α : Type}
    (e : ControllerEngineBase α) : Option CombinedRobotState :=
  e.latest_robot_state

/-- Modelled from the spec: `getPhysicsState(sensor_id, cmd, extra)`:
FAILED if the sensor id is unknown; FAILED if the sensor's role is not in
the force/torque-capable category; else delegates and passes through the
sensor's own Status and data. -/
def ControllerEngineBase.getPhysicsState {α : Type} (e : ControllerEngineBase α)
    (sensor_id : String) (cmd : String) (extra : Option α) : Status × Option α :=
  match findValue e.sensors sensor_id with
  | none =>
    ({ status := StatusFlags.FAILED,
       message := "could not find sensor with name " ++ sensor_id }, none)
  | some sensor =>
    if sensor.role.forceTorqueCapable then sensor.getPhysicsState cmd extra
    else ({ status := StatusFlags.FAILED,
            message := "sensor " ++ sensor_id ++ " does not provide physics states" },
          none)

/-- Modelled from the spec: `getSceneryState(sensor_id, cmd, extra)`:
FAILED if the sensor id is unknown; FAILED if the sensor's role is not in
the vision-capable category; else delegates and passes through the
sensor's own Status and data. -/
def ControllerEngineBase.getSceneryState {α : Type} (e : ControllerEngineBase α)
    (sensor_id : String) (cmd : String) (extra : Option α) : Status × Option α :=
  match findValue e.sensors sensor_id with
  | none =>
    ({ status := StatusFlags.FAILED,
       message := "could not find sensor with name " ++ sensor_id }, none)
  | some sensor =>
    if sensor.role.visionCapable then sensor.getSceneryState cmd extra
    else ({ status := StatusFlags.FAILED,
            message := "sensor " ++ sensor_id ++ " does not provide scenery states" },
          none)

/-- Modelled from the spec: a loaded robot model owned by a kinematics
engine (`tasqsym.core.classes.model_robot.ModelRobot`, module absent from
the tree). Only the identity and role matter to the claims; destroy() is
recorded as a trace event by the caller. -/
structure ModelRobot where
  unique_id : String
  role : RobotRole
deriving DecidableEq, Repr

/-- Modelled from the spec: RobotCombiner (`tasqsym.core.classes`
combiner, module absent from the tree): the single source of truth for
role ambiguity, returning winning id(s) for a task under a pluggable
resolution policy. -/
structure RobotCombiner where
  chooseSensorId : SensorRole → String → String
  chooseEndEffectorIds : String → List String

/-- Modelled from the spec: the roster fields of KinematicsEngineBase
(`tasqsym.core.classes.engine_base.KinematicsEngineBase`, module absent
from the tree): base_id, end_effector_id, multiple_end_effector_ids,
sensor_ids (map role → id), robot_combiner, robot_models (map id → model)
and sensors (map id → sensor role). -/
structure KinematicsEngineBase where
  class_id : String
  base_id : String := ""
  end_effector_id : String := ""
  multiple_end_effector_ids : List String := []
  sensor_ids : List (SensorRole × String) := []
  robot_combiner : Option RobotCombiner := none
  robot_models : List (String × ModelRobot) := []
  sensors : List (String × SensorRole) := []

/-- Modelled from the spec: `KinematicsEngineBase.cleanup()` calls
destroy() on every owned model (the returned list records the destroyed
ids, in roster order) and then resets base_id, end_effector_id,
multiple_end_effector_ids, sensor_ids, robot_combiner, robot_models and
sensors to their empty defaults. -/
def KinematicsEngineBase.cleanup (e : KinematicsEngineBase) :
    KinematicsEngineBase × List String :=
  ({ class_id := e.class_id }, e.robot_models.map (fun p => p.1))

/-- Modelled from the spec: a behavior-tree node
(consumed by `tasqsym.core.bt_decoder`, module absent from the tree): a
single-key mapping from a node-type key to a body carrying the "@name"
attribute, the "@skill" name plus parameters for leaves, and the "child"
list for control nodes. -/
inductive BTNode where
  | node (key : String) (name : String) (skill : String)
      (params : List (String × DataValue)) (children : List BTNode)

/-- Modelled from the spec: the behavior-tree document shape
`\x7broot:\x7bBehaviorTree:\x7bTree:[node,...]\x7d\x7d\x7d`. -/
structure BehaviorTreeDoc where
  tree : List BTNode

/-- Modelled from the spec: the decoder fields of TaskSequenceDecoder
(`tasqsym.core.bt_decoder.TaskSequenceDecoder`, module absent from the
tree): last-executed-node logging plus the stored resume/escape paths. -/
structure DecoderState where
  log_last_executed_node_name : String := ""
  log_last_executed_node_id : List Nat := []
  start_from_node_id : List Nat := []
  escape_at_node_id : List Nat := []
deriving DecidableEq, Repr

/-- Modelled from the spec: observable interactions of one decoder run with
the SkillInterface: updating the last-executed-node log before invoking a
node, running a named skill to completion, and SkillInterface.cleanup(). -/
inductive DecoderEvent where
  | attempt (name : String) (nodeId : List Nat)
  | skillCall (skill : String)
  | skillCleanup
deriving DecidableEq, Repr

/-- Modelled from the spec: the SkillInterface behaviour visible to the
decoder: running a named skill with its parameters against the current
blackboard yields a Status and the updated blackboard. -/
def SkillEnv : Type :=
  String → List (String × DataValue) → Blackboard DataValue →
    Status × Blackboard DataValue

/-- Modelled from the spec: the value a tree-walking step returns: the
node's Status, the decoder state, the blackboard, and the trace of
SkillInterface interactions. -/
structure WalkResult where
  status : Status
  state : DecoderState
  board : Blackboard DataValue
  trace : List DecoderEvent
deriving Repr

/-- Modelled from the spec: node addressing order: a path strictly precedes
a resume path when it branches off before it (at the first differing child
index); ancestors and descendants of the resume path do not precede it, as
ancestors must still be entered to reach the resume point. -/
def precedesBranch : List Nat → List Nat → Bool
  | [], _ => false
  | _ :: _, [] => false
  | a :: p, b :: q => if a < b then true else if b < a then false else precedesBranch p q

mutual

/-- Modelled from the spec: `TaskSequenceDecoder.parseControl`: dispatch on
the node's single key. "Sequence" and "Fallback" run the child list;
"Action" logs the node as about to be attempted and asks the
SkillInterface to run the named skill to completion; "Parallel" and any
unrecognized key yield UNEXPECTED without running the node's children. -/
def parseControl (env : SkillEnv) (n : BTNode) (s : DecoderState)
    (board : Blackboard DataValue) (path : List Nat) : WalkResult :=
  match n with
  | BTNode.node key name skill params children =>
    if key = "Sequence" then runSequence env children s board path 0
    else if key = "Fallback" then runFallback env children s board path 0
    else if key = "Action" then
      let s1 := { s with log_last_executed_node_name := name,
                         log_last_executed_node_id := path }
      let call := env skill params board
      { status := call.1, state := s1, board := call.2,
        trace := [DecoderEvent.attempt name path, DecoderEvent.skillCall skill] }
    else
      { status := { status := StatusFlags.UNEXPECTED,
                    message := "unexpected node type " ++ key },
        state := s, board := board, trace := [] }

/-- Modelled from the spec: `TaskSequenceDecoder.runSequence`: run the
children in order, aborting and returning on the first non-SUCCESS child;
a child whose path equals the stored escape path halts the walk with
ESCAPED; a child preceding the stored resume path is skipped without being
executed and the sequence continues past it. -/
def runSequence (env : SkillEnv) (children : List BTNode) (s : DecoderState)
    (board : Blackboard DataValue) (path : List Nat) (i : Nat) : WalkResult :=
  match children with
  | [] => { status := { status := StatusFlags.SUCCESS }, state := s,
            board := board, trace := [] }
  | c :: rest =>
    let cpath := path ++ [i]
    if cpath = s.escape_at_node_id then
      { status := { status := StatusFlags.ESCAPED }, state := s,
        board := board, trace := [] }
    else if precedesBranch cpath s.start_from_node_id then
      runSequence env rest s board path (i + 1)
    else
      let r := parseControl env c s board cpath
      if r.status.status = StatusFlags.SUCCESS ∨
         r.status.status = StatusFlags.SKIPPED then
        let r2 := runSequence env rest r.state r.board path (i + 1)
        { r2 with trace := r.trace ++ r2.trace }
      else r

/-- Modelled from the spec: `TaskSequenceDecoder.runFallback`: run the
children in order, returning on the first SUCCESS child, else the last
failure; an ESCAPED child halts the walk; escape and resume paths are
honoured as in runSequence. -/
def runFallback (env : SkillEnv) (children : List BTNode) (s : DecoderState)
    (board : Blackboard DataValue) (path : List Nat) (i : Nat) : WalkResult :=
  match children with
  | [] => { status := { status := StatusFlags.FAILED,
                        message := "no fallback child succeeded" },
            state := s, board := board, trace := [] }
  | c :: rest =>
    let cpath := path ++ [i]
    if cpath = s.escape_at_node_id then
      { status := { status := StatusFlags.ESCAPED }, state := s,
        board := board, trace := [] }
    else if precedesBranch cpath s.start_from_node_id then
      runFallback env rest s board path (i + 1)
    else
      let r := parseControl env c s board cpath
      if r.status.status = StatusFlags.SUCCESS ∨
         r.status.status = StatusFlags.ESCAPED then r
      else
        match rest with
        | [] => r
        | _ :: _ =>
          let r2 := runFallback env rest r.state r.board path (i + 1)
          { r2 with trace := r.trace ++ r2.trace }

end

/-- Modelled from the spec: `TaskSequenceDecoder.runTree(bt, board,
skillInterface, engineInterface, start_from_node_id=[],
escape_at_node_id=[])`: resets the logging fields to empty, stores the
resume/escape paths, walks the tree list as the top-level run, and always
calls skillInterface.cleanup() before returning on every exit path; the
returned Status is exactly the top-level run's Status. -/
def runTree (env : SkillEnv) (bt : BehaviorTreeDoc)
    (board : Blackboard DataValue) (s : DecoderState)
    (start_from_node_id : List Nat := []) (escape_at_node_id : List Nat := []) :
    WalkResult :=
  let s0 := { s with log_last_executed_node_name := "",
                     log_last_executed_node_id := ([] : List Nat),
                     start_from_node_id := start_from_node_id,
                     escape_at_node_id := escape_at_node_id }
  let r := runSequence env bt.tree s0 board [] 0
  { r with trace := r.trace ++ [DecoderEvent.skillCleanup] }

/-- Modelled from the spec: a RobotState object on the Python heap: an
attribute slot referencing a Pose object, plus status and timesec values.
Object identity is made explicit to state the aliasing discipline of the
action constructors. -/
structure RobotStateCell where
  poseRef : Nat
  status : Status
  timesec : Option ℚ
deriving DecidableEq, Repr

/-- Modelled from the spec: an explicit heap of Pose objects and RobotState
objects, addressed by allocation index; new objects are appended. -/
structure ObjectHeap where
  poses : List Pose := []
  states : List RobotStateCell := []
deriving DecidableEq, Repr

/-- Modelled from the spec: dereferencing a RobotState object: the value a
caller observes when reading the object's base_state/status/timesec. -/
def ObjectHeap.readState (h : ObjectHeap) (r : Nat) : Option RobotState :=
  match h.states[r]? with
  | none => none
  | some cell =>
    match h.poses[cell.poseRef]? with
    | none => none
    | some p => some { base_state := p, status := cell.status, timesec := cell.timesec }

/-- Modelled from the spec: dereferencing a Pose object. -/
def ObjectHeap.readPose (h : ObjectHeap) (r : Nat) : Option Pose :=
  h.poses[r]?

/-- Modelled from the spec: FKAction
(`tasqsym.core.common.action_formats.FKAction`, module absent from the
tree): solve-by tag FORWARD_KINEMATICS, a goal RobotState, and an open
configs bag; the goal slot references the action's own deep copy. -/
structure FKAction where
  solveby_type : SolveByType
  goalRef : Nat
  configs : List (String × DataValue)
deriving DecidableEq, Repr

/-- Modelled from the spec: the FKAction constructor deep-copies its
goal/state argument: a fresh Pose object and a fresh RobotState object are
allocated holding the argument's current values, and the action stores the
fresh reference, never aliasing the caller's object. -/
def FKAction.construct (h : ObjectHeap) (stateRef : Nat)
    (configs : List (String × DataValue) := []) : Option (ObjectHeap × FKAction) :=
  match h.states[stateRef]? with
  | none => none
  | some cell =>
    match h.poses[cell.poseRef]? with
    | none => none
    | some p =>
      some ({ poses := h.poses ++ [p],
              states := h.states ++ [{ cell with poseRef := h.poses.length }] },
            { solveby_type := SolveByType.FORWARD_KINEMATICS,
              goalRef := h.states.length, configs := configs })

/-- Modelled from the spec: IKAction
(`tasqsym.core.common.action_formats.IKAction`, module absent from the
tree), restricted to the goal slot: solve-by tag INVERSE_KINEMATICS and a
goal Pose referencing the action's own deep copy. -/
structure IKAction where
  solveby_type : SolveByType
  goalRef : Nat
  source_links : List String
  posture_rate : ℚ
  configs : List (String × DataValue)
deriving DecidableEq, Repr

/-- Modelled from the spec: the IKAction constructor deep-copies its goal
Pose argument into a fresh Pose object and stores the fresh reference. -/
def IKAction.construct (h : ObjectHeap) (poseRef : Nat)
    (source_links : List String) (posture_rate : ℚ := 1)
    (configs : List (String × DataValue) := []) : Option (ObjectHeap × IKAction) :=
  match h.poses[poseRef]? with
  | none => none
  | some p =>
    some ({ h with poses := h.poses ++ [p] },
          { solveby_type := SolveByType.INVERSE_KINEMATICS,
            goalRef := h.poses.length, source_links := source_links,
            posture_rate := posture_rate, configs := configs })

/-- Modelled from the spec: caller-side mutations of a RobotState object
after an action was constructed from it: rebinding its base_state attribute
to a freshly allocated Pose, or mutating the referenced Pose object in
place. -/
inductive StateMutation where
  | rebindBasePose (p : Pose)
  | mutateBasePose (p : Pose)
deriving DecidableEq, Repr

/-- Modelled from the spec: applying a caller-side mutation to the
RobotState object at the given reference; an invalid reference leaves the
heap unchanged. -/
def ObjectHeap.applyMutation (h : ObjectHeap) (r : Nat) (m : StateMutation) :
    ObjectHeap :=
  match h.states[r]?, m with
  | none, _ => h
  | some cell, StateMutation.rebindBasePose p =>
    { poses := h.poses ++ [p],
      states := h.states.set r { cell with poseRef := h.poses.length } }
  | some cell, StateMutation.mutateBasePose p =>
    { poses := h.poses.set cell.poseRef p, states := h.states }

/-- Modelled from the spec: mutating a Pose object in place. -/
def ObjectHeap.setPose (h : ObjectHeap) (r : Nat) (p : Pose) : ObjectHeap :=
  { h with poses := h.poses.set r p }

/-- Helper: findValue on a cons cell. -/
theorem findValue_cons {β : Type} (k : String) (v : β) (rest : List (String × β))
    (key : String) :
    findValue ((k, v) :: rest) key = if k = key then some v else findValue rest key :=
  rfl

/-- Helper: a successful lookup in the left list survives appending. -/
theorem findValue_append_of_some {β : Type} {l₁ : List (String × β)}
    {key : String} {v : β} (l₂ : List (String × β))
    (h : findValue l₁ key = some v) : findValue (l₁ ++ l₂) key = some v := by
  induction l₁ with
  | nil => exact Option.noConfusion h
  | cons hd tl ih =>
    obtain ⟨k0, v0⟩ := hd
    rw [findValue_cons] at h
    rw [List.cons_append, findValue_cons]
    by_cases hk : k0 = key
    · rw [if_pos hk] at h ⊢
      exact h
    · rw [if_neg hk] at h ⊢
      exact ih h

/-- Helper: a failed lookup in the left list defers to the right list. -/
theorem findValue_append_of_none {β : Type} {l₁ : List (String × β)}
    {key : String} (l₂ : List (String × β))
    (h : findValue l₁ key = none) :
    findValue (l₁ ++ l₂) key = findValue l₂ key := by
  induction l₁ with
  | nil => rfl
  | cons hd tl ih =>
    obtain ⟨k0, v0⟩ := hd
    rw [findValue_cons] at h
    rw [List.cons_append, findValue_cons]
    by_cases hk : k0 = key
    · rw [if_pos hk] at h
      exact Option.noConfusion h
    · rw [if_neg hk] at h ⊢
      exact ih h

/-- Helper: lookup of an absent key yields none. -/
theorem findValue_eq_none_of_not_mem {β : Type} {l : List (String × β)}
    {key : String} (h : key ∉ l.map (fun p => p.1)) : findValue l key = none := by
  induction l with
  | nil => rfl
  | cons hd tl ih =>
    obtain ⟨k0, v0⟩ := hd
    simp only [List.map_cons, List.mem_cons] at h
    push_neg at h
    rw [findValue_cons, if_neg (fun hk => h.1 hk.symm)]
    exact ih h.2

/-- Helper: under attribute-name uniqueness, the Data attribute read after
construction recovers the value stored under each dictionary key. -/
theorem getattr_ofDict_of_mem (d : List (String × DataValue)) (k : String)
    (v : DataValue) (hnd : (d.map (fun p => stripAtKey p.1)).Nodup)
    (hmem : (k, v) ∈ d) :
    (Data.ofDict d).getattr (stripAtKey k) = some v := by
  induction d with
  | nil => simp at hmem
  | cons hd tl ih =>
    obtain ⟨k0, v0⟩ := hd
    simp only [List.map_cons, List.nodup_cons] at hnd
    simp only [Data.ofDict, Data.getattr, List.map_cons, List.reverse_cons]
    rcases List.mem_cons.mp hmem with hhd | htl
    · obtain ⟨hk, hv⟩ := Prod.ext_iff.mp hhd
      subst hk
      subst hv
      have hnone : findValue (tl.map (fun p => (stripAtKey p.1, p.2))).reverse
          (stripAtKey k) = none := by
        apply findValue_eq_none_of_not_mem
        intro hmemk
        apply hnd.1
        have hmm : (tl.map (fun p => (stripAtKey p.1, p.2))).map (fun p => p.1) =
            tl.map (fun p => stripAtKey p.1) := by
          simp [List.map_map]
        rw [List.map_reverse, List.mem_reverse, hmm] at hmemk
        exact hmemk
      rw [findValue_append_of_none _ hnone]
      rw [findValue_cons, if_pos rfl]
    · have hrec := ih hnd.2 htl
      simp only [Data.ofDict, Data.getattr] at hrec
      exact findValue_append_of_some _ hrec

/-- C7: for every non-empty string key and every value,
Blackboard.setBoardVariable(key, value) followed by getBoardVariable(key)
returns that value; for the empty-string key, setBoardVariable("", value)
leaves the board completely unchanged. -/
theorem blackboard_set_then_get (α : Type) (b : Blackboard α) (key : String)
    (value : α) :
    (key ≠ "" → (b.setBoardVariable key value).getBoardVariable key = some value) ∧
    b.setBoardVariable "" value = b := by
  constructor
  · intro hk
    simp [Blackboard.setBoardVariable, Blackboard.getBoardVariable, hk, findValue]
  · simp [Blackboard.setBoardVariable]

/-- Witness for C7 at a concrete board, key and value. -/
theorem blackboard_set_then_get_witness :
    ("test_key" : String) ≠ "" ∧
    ((Blackboard.mk [("other", 7)] : Blackboard Nat).setBoardVariable "test_key"
        42).getBoardVariable "test_key" = some 42 :=
  ⟨by decide,
   (blackboard_set_then_get Nat (Blackboard.mk [("other", 7)]) "test_key" 42).1
     (by decide)⟩

/-- C9: constructing a RobotState from a Pose with the status and timesec
arguments omitted yields status outcome SUCCESS (with default reason and
message) and timesec null. -/
theorem robot_state_construct_defaults (p : Pose) :
    (RobotState.construct p).status.status = StatusFlags.SUCCESS ∧
    (RobotState.construct p).status.reason = StatusReason.NONE ∧
    (RobotState.construct p).status.message = "" ∧
    (RobotState.construct p).timesec = none :=
  ⟨rfl, rfl, rfl, rfl⟩

/-- C10: every key of the dictionary given to the Data constructor becomes
an attribute holding the corresponding value, read back under the name
with a leading "@" stripped, while keys without a leading "@" keep their
name unchanged. -/
theorem data_ofDict_attributes (d : List (String × DataValue)) (k : String)
    (v : DataValue) :
    ((d.map (fun p => stripAtKey p.1)).Nodup → (k, v) ∈ d →
      (Data.ofDict d).getattr (stripAtKey k) = some v) ∧
    (k.data.head? ≠ some '@' → stripAtKey k = k) ∧
    (∀ rest, k.data = '@' :: rest → stripAtKey k = { data := rest }) := by
  refine ⟨fun hnd hmem => getattr_ofDict_of_mem d k v hnd hmem, ?_, ?_⟩
  · intro hne
    unfold stripAtKey
    rw [if_neg hne]
  · intro rest hk
    unfold stripAtKey
    rw [hk]
    rfl

/-- Witness for C10: the dictionary from the shipped test, with key
"@special_field" read back as attribute special_field, and plain keys
unchanged. -/
theorem data_ofDict_attributes_witness :
    (Data.ofDict [("normal_field", DataValue.str "value1"),
                  ("@special_field", DataValue.str "value2"),
                  ("nested", DataValue.dict [("key", "value")])]).getattr
        "special_field" = some (DataValue.str "value2") ∧
    (Data.ofDict [("normal_field", DataValue.str "value1"),
                  ("@special_field", DataValue.str "value2"),
                  ("nested", DataValue.dict [("key", "value")])]).getattr
        "normal_field" = some (DataValue.str "value1") := by
  have h1 := (data_ofDict_attributes
      [("normal_field", DataValue.str "value1"),
       ("@special_field", DataValue.str "value2"),
       ("nested", DataValue.dict [("key", "value")])] "@special_field"
      (DataValue.str "value2")).1 (by decide) (by decide)
  have h2 := (data_ofDict_attributes
      [("normal_field", DataValue.str "value1"),
       ("@special_field", DataValue.str "value2"),
       ("nested", DataValue.dict [("key", "value")])] "normal_field"
      (DataValue.str "value1")).1 (by decide) (by decide)
  constructor
  · have hs : stripAtKey "@special_field" = "special_field" := by decide
    rwa [hs] at h1
  · have hs : stripAtKey "normal_field" = "normal_field" := by decide
    rwa [hs] at h2

/-- Helper: the emergency-stop aggregation invokes exactly the roster ids,
in order. -/
theorem emergencyStopLoop_trace (rs : List (String × PhysicalRobot)) :
    (emergencyStopLoop rs).2 = rs.map (fun p => p.1) := by
  induction rs with
  | nil => rfl
  | cons hd tl ih =>
    obtain ⟨id, robot⟩ := hd
    simp only [emergencyStopLoop, List.map_cons, ih]

/-- Helper: the emergency-stop aggregation succeeds exactly when every
robot's own stop succeeded. -/
theorem emergencyStopLoop_success_iff (rs : List (String × PhysicalRobot)) :
    (emergencyStopLoop rs).1.status = StatusFlags.SUCCESS ↔
      ∀ p ∈ rs, p.2.emergencyStop.status = StatusFlags.SUCCESS := by
  induction rs with
  | nil => simp [emergencyStopLoop]
  | cons hd tl ih =>
    obtain ⟨id, robot⟩ := hd
    by_cases hs : robot.emergencyStop.status = StatusFlags.SUCCESS
    · simp [emergencyStopLoop, hs, ih]
    · simp [emergencyStopLoop, hs]

/-- Helper: the first robot whose own stop did not succeed determines the
aggregate Status, reason and message included. -/
theorem emergencyStopLoop_first_failure (rs : List (String × PhysicalRobot))
    (p : String × PhysicalRobot)
    (h : rs.find? (fun q => decide (q.2.emergencyStop.status ≠ StatusFlags.SUCCESS)) =
      some p) :
    (emergencyStopLoop rs).1 = p.2.emergencyStop := by
  induction rs with
  | nil => exact Option.noConfusion h
  | cons hd tl ih =>
    obtain ⟨id, robot⟩ := hd
    by_cases hs : robot.emergencyStop.status = StatusFlags.SUCCESS
    · rw [List.find?_cons_of_neg _ (by simp [hs])] at h
      simp only [emergencyStopLoop, if_pos hs]
      exact ih h
    · rw [List.find?_cons_of_pos _ (by simp [hs])] at h
      obtain rfl := Option.some.injEq .. ▸ h
      simp only [emergencyStopLoop, if_neg hs]

/-- C4: ControllerEngineBase.emergencyStop() returns SUCCESS iff every
owned robot's emergencyStop() returned SUCCESS; each owned robot is
invoked exactly once; and the first FAILED/ABORTED sub-result determines
the returned Status with its reason and message preserved. -/
theorem controller_emergency_stop_contract {α : Type}
    (e : ControllerEngineBase α)
    (hnd : (e.robots.map (fun p => p.1)).Nodup) :
    ((e.emergencyStop).1.status = StatusFlags.SUCCESS ↔
        ∀ p ∈ e.robots, p.2.emergencyStop.status = StatusFlags.SUCCESS) ∧
    (∀ id ∈ e.robots.map (fun p => p.1), (e.emergencyStop).2.count id = 1) ∧
    (∀ p, e.robots.find?
        (fun q => decide (q.2.emergencyStop.status ≠ StatusFlags.SUCCESS)) =
          some p →
      (e.emergencyStop).1 = p.2.emergencyStop) := by
  refine ⟨emergencyStopLoop_success_iff e.robots, ?_, ?_⟩
  · intro id hid
    rw [ControllerEngineBase.emergencyStop, emergencyStopLoop_trace]
    exact List.count_eq_one_of_mem hnd hid
  · intro p hp
    exact emergencyStopLoop_first_failure e.robots p hp

/-- Concrete two-robot engine used to witness C4, mirroring the shipped
test_controller_engine_emergency_stop fixture. -/
def estopWitnessEngine : ControllerEngineBase Nat :=
  { class_id := "test_controller",
    robots := [("robot1", { unique_id := "robot1", role := RobotRole.MANIPULATOR,
                            emergencyStop := { status := StatusFlags.SUCCESS } }),
               ("robot2", { unique_id := "robot2", role := RobotRole.MANIPULATOR,
                            emergencyStop := { status := StatusFlags.SUCCESS } })] }

/-- Witness for C4: both robots succeed, the aggregate is SUCCESS, and each
robot id was invoked exactly once. -/
theorem controller_emergency_stop_contract_witness :
    (estopWitnessEngine.emergencyStop).1.status = StatusFlags.SUCCESS ∧
    (estopWitnessEngine.emergencyStop).2.count "robot1" = 1 ∧
    (estopWitnessEngine.emergencyStop).2.count "robot2" = 1 := by
  have h := controller_emergency_stop_contract estopWitnessEngine (by decide)
  exact ⟨h.1.mpr (by decide), h.2.1 "robot1" (by decide), h.2.1 "robot2" (by decide)⟩

/-- C5: getPhysicsState and getSceneryState fail with FAILED for an
unknown sensor id and for a sensor whose role is outside the requested
category, and otherwise delegate, passing through the sensor's own Status
and data unchanged. -/
theorem controller_physics_scenery_contract {α : Type}
    (e : ControllerEngineBase α) (sensor_id cmd : String) (extra : Option α) :
    (findValue e.sensors sensor_id = none →
      (e.getPhysicsState sensor_id cmd extra).1.status = StatusFlags.FAILED ∧
      (e.getSceneryState sensor_id cmd extra).1.status = StatusFlags.FAILED) ∧
    (∀ sensor, findValue e.sensors sensor_id = some sensor →
      (sensor.role.forceTorqueCapable = false →
        (e.getPhysicsState sensor_id cmd extra).1.status = StatusFlags.FAILED) ∧
      (sensor.role.forceTorqueCapable = true →
        e.getPhysicsState sensor_id cmd extra = sensor.getPhysicsState cmd extra) ∧
      (sensor.role.visionCapable = false →
        (e.getSceneryState sensor_id cmd extra).1.status = StatusFlags.FAILED) ∧
      (sensor.role.visionCapable = true →
        e.getSceneryState sensor_id cmd extra = sensor.getSceneryState cmd extra)) := by
  constructor
  · intro hnone
    constructor
    · simp [ControllerEngineBase.getPhysicsState, hnone]
    · simp [ControllerEngineBase.getSceneryState, hnone]
  · intro sensor hsome
    refine ⟨fun hft => ?_, fun hft => ?_, fun hvc => ?_, fun hvc => ?_⟩
    · simp [ControllerEngineBase.getPhysicsState, hsome, hft]
    · simp [ControllerEngineBase.getPhysicsState, hsome, hft]
    · simp [ControllerEngineBase.getSceneryState, hsome, hvc]
    · simp [ControllerEngineBase.getSceneryState, hsome, hvc]

/-- Concrete CAMERA_3D sensor used to witness C5, answering scenery
queries with its own SUCCESS result and payload. -/
def cameraWitnessSensor : PhysicalSensor Nat :=
  { role := SensorRole.CAMERA_3D,
    getPhysicsState := fun _ _ => ({ status := StatusFlags.UNKNOWN }, none),
    getSceneryState := fun _ _ => ({ status := StatusFlags.SUCCESS }, some 99) }

/-- Concrete one-sensor engine used to witness C5, mirroring the shipped
TestControllerEnginePhysicsAndScenery fixture. -/
def sceneryWitnessEngine : ControllerEngineBase Nat :=
  { class_id := "test_controller", sensors := [("sensor1", cameraWitnessSensor)] }

/-- Witness for C5: an unknown sensor id fails, a CAMERA_3D sensor queried
via getPhysicsState fails, and the same sensor queried via getSceneryState
passes through its own SUCCESS result and data. -/
theorem controller_physics_scenery_contract_witness :
    (sceneryWitnessEngine.getPhysicsState "nonexistent_sensor" "test_cmd"
        none).1.status = StatusFlags.FAILED ∧
    (sceneryWitnessEngine.getPhysicsState "sensor1" "test_cmd" none).1.status =
      StatusFlags.FAILED ∧
    sceneryWitnessEngine.getSceneryState "sensor1" "test_cmd" none =
      ({ status := StatusFlags.SUCCESS }, some 99) := by
  have hu := (controller_physics_scenery_contract sceneryWitnessEngine
      "nonexistent_sensor" "test_cmd" none).1 rfl
  have hk := (controller_physics_scenery_contract sceneryWitnessEngine
      "sensor1" "test_cmd" none).2 cameraWitnessSensor rfl
  exact ⟨hu.1, hk.1 rfl, hk.2.2.2 rfl⟩

/-- C6: KinematicsEngineBase.cleanup() destroys each owned model exactly
once, resets every roster field to its empty default, and a second cleanup
on the resulting state destroys nothing and changes nothing. -/
theorem kinematics_cleanup_contract (e : KinematicsEngineBase) :
    (e.cleanup).1.base_id = "" ∧
    (e.cleanup).1.end_effector_id = "" ∧
    (e.cleanup).1.multiple_end_effector_ids = [] ∧
    (e.cleanup).1.sensor_ids = [] ∧
    (e.cleanup).1.robot_combiner = none ∧
    (e.cleanup).1.robot_models = [] ∧
    (e.cleanup).1.sensors = [] ∧
    (e.cleanup).2 = e.robot_models.map (fun p => p.1) ∧
    ((e.robot_models.map (fun p => p.1)).Nodup →
      ∀ id ∈ e.robot_models.map (fun p => p.1), (e.cleanup).2.count id = 1) ∧
    ((e.cleanup).1).cleanup = ((e.cleanup).1, []) := by
  refine ⟨rfl, rfl, rfl, rfl, rfl, rfl, rfl, rfl, ?_, rfl⟩
  intro hnd id hid
  exact List.count_eq_one_of_mem hnd hid

/-- Concrete kinematics engine used to witness C6, mirroring the shipped
test_kinematics_engine_cleanup fixture. -/
def cleanupWitnessEngine : KinematicsEngineBase :=
  { class_id := "test_kinematics",
    base_id := "test_base",
    end_effector_id := "test_ee",
    multiple_end_effector_ids := ["ee1", "ee2"],
    sensor_ids := [(SensorRole.CAMERA_3D, "cam1")],
    robot_models := [("robot1", { unique_id := "robot1",
                                  role := RobotRole.MANIPULATOR })] }

/-- Witness for C6: the populated engine is reset to empty defaults, its
one model is destroyed exactly once, and a second cleanup is a no-op. -/
theorem kinematics_cleanup_contract_witness :
    (cleanupWitnessEngine.cleanup).1.robot_models = [] ∧
    (cleanupWitnessEngine.cleanup).2.count "robot1" = 1 ∧
    ((cleanupWitnessEngine.cleanup).1).cleanup =
      ((cleanupWitnessEngine.cleanup).1, []) := by
  have h := kinematics_cleanup_contract cleanupWitnessEngine
  exact ⟨h.2.2.2.2.2.1, h.2.2.2.2.2.2.2.2.1 (by decide) "robot1" (by decide),
         h.2.2.2.2.2.2.2.2.2⟩

/-- Helper: no tree-walking step ever emits the SkillInterface.cleanup()
event: only runTree itself performs cleanup. Stated for all nodes and
child lists of bounded size, proved by strong induction on the bound. -/
theorem walk_trace_no_cleanup (n : Nat) :
    (∀ (env : SkillEnv) (c : BTNode) (s : DecoderState)
        (board : Blackboard DataValue) (path : List Nat), sizeOf c ≤ n →
        DecoderEvent.skillCleanup ∉ (parseControl env c s board path).trace) ∧
    (∀ (env : SkillEnv) (cs : List BTNode) (s : DecoderState)
        (board : Blackboard DataValue) (path : List Nat) (i : Nat), sizeOf cs ≤ n →
        DecoderEvent.skillCleanup ∉ (runSequence env cs s board path i).trace ∧
        DecoderEvent.skillCleanup ∉ (runFallback env cs s board path i).trace) := by
  induction n using Nat.strong_induction_on with
  | _ n ih =>
    constructor
    · intro env c s board path hle
      obtain ⟨key, name, skill, params, children⟩ := c
      have hsz : sizeOf children < n := by
        have hspec := BTNode.node.sizeOf_spec key name skill params children
        omega
      rw [parseControl]
      by_cases h1 : key = "Sequence"
      · rw [if_pos h1]
        exact ((ih _ hsz).2 env children s board path 0 le_rfl).1
      · rw [if_neg h1]
        by_cases h2 : key = "Fallback"
        · rw [if_pos h2]
          exact ((ih _ hsz).2 env children s board path 0 le_rfl).2
        · rw [if_neg h2]
          by_cases h3 : key = "Action"
          · rw [if_pos h3]
            simp
          · rw [if_neg h3]
            simp
    · intro env cs s board path i hle
      cases cs with
      | nil =>
        constructor
        · rw [runSequence]
          simp
        · rw [runFallback]
          simp
      | cons c rest =>
        have hszc : sizeOf c < n := by
          have hspec := List.cons.sizeOf_spec c rest
          omega
        have hszr : sizeOf rest < n := by
          have hspec := List.cons.sizeOf_spec c rest
          omega
        have ihc := (ih _ hszc).1 env c
        have ihr := (ih _ hszr).2 env rest
        constructor
        · rw [runSequence]
          by_cases he : path ++ [i] = s.escape_at_node_id
          · rw [if_pos he]
            simp
          · rw [if_neg he]
            by_cases hp : precedesBranch (path ++ [i]) s.start_from_node_id = true
            · rw [if_pos hp]
              exact (ihr s board path (i + 1) le_rfl).1
            · rw [if_neg hp]
              by_cases hs : (parseControl env c s board (path ++ [i])).status.status =
                  StatusFlags.SUCCESS ∨
                  (parseControl env c s board (path ++ [i])).status.status =
                  StatusFlags.SKIPPED
              · rw [if_pos hs]
                simp only [List.mem_append, not_or]
                exact ⟨ihc s board (path ++ [i]) le_rfl,
                       (ihr (parseControl env c s board (path ++ [i])).state
                          (parseControl env c s board (path ++ [i])).board
                          path (i + 1) le_rfl).1⟩
              · rw [if_neg hs]
                exact ihc s board (path ++ [i]) le_rfl
        · rw [runFallback]
          by_cases he : path ++ [i] = s.escape_at_node_id
          · rw [if_pos he]
            simp
          · rw [if_neg he]
            by_cases hp : precedesBranch (path ++ [i]) s.start_from_node_id = true
            · rw [if_pos hp]
              exact (ihr s board path (i + 1) le_rfl).2
            · rw [if_neg hp]
              by_cases hs : (parseControl env c s board (path ++ [i])).status.status =
                  StatusFlags.SUCCESS ∨
                  (parseControl env c s board (path ++ [i])).status.status =
                  StatusFlags.ESCAPED
              · rw [if_pos hs]
                exact ihc s board (path ++ [i]) le_rfl
              · rw [if_neg hs]
                cases rest with
                | nil => exact ihc s board (path ++ [i]) le_rfl
                | cons c2 rest2 =>
                  simp only [List.mem_append, not_or]
                  exact ⟨ihc s board (path ++ [i]) le_rfl,
                         ((ih _ hszr).2 env (c2 :: rest2)
                            (parseControl env c s board (path ++ [i])).state
                            (parseControl env c s board (path ++ [i])).board
                            path (i + 1) le_rfl).2⟩

/-- C1: parseControl on a node whose single key is "Parallel" or any
node-type key other than the supported types returns a Status with outcome
UNEXPECTED (not FAILED), and the node's children are never run: no skill
is invoked, and the decoder state and blackboard are untouched. -/
theorem parseControl_unsupported_key (env : SkillEnv) (key name skill : String)
    (params : List (String × DataValue)) (children : List BTNode)
    (s : DecoderState) (board : Blackboard DataValue) (path : List Nat)
    (h1 : key ≠ "Sequence") (h2 : key ≠ "Fallback") (h3 : key ≠ "Action") :
    (parseControl env (BTNode.node key name skill params children) s board
        path).status.status = StatusFlags.UNEXPECTED ∧
    (parseControl env (BTNode.node key name skill params children) s board
        path).trace = [] ∧
    (parseControl env (BTNode.node key name skill params children) s board
        path).state = s ∧
    (parseControl env (BTNode.node key name skill params children) s board
        path).board = board := by
  rw [parseControl, if_neg h1, if_neg h2, if_neg h3]
  exact ⟨rfl, rfl, rfl, rfl⟩

/-- Concrete SkillEnv whose skills all succeed. -/
def successSkillEnv : SkillEnv :=
  fun _ _ board => ({ status := StatusFlags.SUCCESS }, board)

/-- Concrete SkillEnv whose skills all fail with a process failure named
"Test failure", mirroring the shipped test_run_tree_error_handling. -/
def failSkillEnv : SkillEnv :=
  fun _ _ board =>
    ({ status := StatusFlags.FAILED, reason := StatusReason.PROCESS_FAILURE,
       message := "Test failure" }, board)

/-- Concrete Parallel node (with the shipped fixture's threshold
attributes and a runnable child) used to witness C1. -/
def parallelWitnessNode : BTNode :=
  BTNode.node "Parallel" "test_parallel" ""
    [("@success_count", DataValue.str "1"), ("@failure_count", DataValue.str "-1")]
    [BTNode.node "Action" "child_action" "some_skill" [] []]

/-- Witness for C1: the Parallel node is rejected with UNEXPECTED and its
child Action is never run. -/
theorem parseControl_unsupported_key_witness :
    (parseControl successSkillEnv parallelWitnessNode {} {} [0]).status.status =
      StatusFlags.UNEXPECTED ∧
    (parseControl successSkillEnv parallelWitnessNode {} {} [0]).trace = [] := by
  have h := parseControl_unsupported_key successSkillEnv "Parallel" "test_parallel"
      ""
      [("@success_count", DataValue.str "1"), ("@failure_count", DataValue.str "-1")]
      [BTNode.node "Action" "child_action" "some_skill" [] []] {} {} [0]
      (by decide) (by decide) (by decide)
  exact ⟨h.1, h.2.1⟩

/-- C2: runTree resets log_last_executed_node_name to "" and
log_last_executed_node_id to [] at call start (its behaviour never depends
on the decoder state found at entry), and invokes SkillInterface.cleanup()
exactly once, as the final interaction, on every exit path. -/
theorem runTree_reset_and_cleanup (env : SkillEnv) (bt : BehaviorTreeDoc)
    (board : Blackboard DataValue) (s : DecoderState) (sf ea : List Nat) :
    (runTree env bt board s sf ea).trace.count DecoderEvent.skillCleanup = 1 ∧
    (runTree env bt board s sf ea).trace.getLast? =
      some DecoderEvent.skillCleanup ∧
    (∀ s', runTree env bt board s' sf ea = runTree env bt board s sf ea) ∧
    (bt.tree = [] →
      (runTree env bt board s sf ea).state.log_last_executed_node_name = "" ∧
      (runTree env bt board s sf ea).state.log_last_executed_node_id = []) := by
  refine ⟨?_, ?_, fun s' => rfl, fun hE => ?_⟩
  · rw [runTree]
    simp only [List.count_append]
    have hnc := ((walk_trace_no_cleanup (sizeOf bt.tree)).2 env bt.tree
        { log_last_executed_node_name := "", log_last_executed_node_id := [],
          start_from_node_id := sf, escape_at_node_id := ea }
        board [] 0 le_rfl).1
    rw [List.count_eq_zero.mpr hnc]
    rfl
  · rw [runTree]
    exact List.getLast?_concat _
  · constructor <;> rw [runTree, hE] <;> rfl

/-- Witness for C2: an empty tree run from a decoder whose logging fields
held stale values ends with them reset and exactly one cleanup call. -/
theorem runTree_reset_and_cleanup_witness :
    (runTree successSkillEnv { tree := [] } {}
        { log_last_executed_node_name := "previous_node",
          log_last_executed_node_id := [5, 6, 7] }).trace.count
        DecoderEvent.skillCleanup = 1 ∧
    (runTree successSkillEnv { tree := [] } {}
        { log_last_executed_node_name := "previous_node",
          log_last_executed_node_id := [5, 6, 7] }).state.log_last_executed_node_name =
      "" ∧
    (runTree successSkillEnv { tree := [] } {}
        { log_last_executed_node_name := "previous_node",
          log_last_executed_node_id := [5, 6, 7] }).state.log_last_executed_node_id =
      [] := by
  have h := runTree_reset_and_cleanup successSkillEnv { tree := [] } {}
      { log_last_executed_node_name := "previous_node",
        log_last_executed_node_id := [5, 6, 7] } [] []
  exact ⟨h.1, (h.2.2.2 rfl).1, (h.2.2.2 rfl).2⟩

/-- C3: the Status returned by runTree is exactly the Status produced by
the top-level run of the tree: outcome, reason and message pass through
unchanged to the caller. -/
theorem runTree_status_passthrough (env : SkillEnv) (bt : BehaviorTreeDoc)
    (board : Blackboard DataValue) (s : DecoderState) (sf ea : List Nat)
    (r : WalkResult)
    (h : runSequence env bt.tree
        { log_last_executed_node_name := "", log_last_executed_node_id := [],
          start_from_node_id := sf, escape_at_node_id := ea } board [] 0 = r) :
    (runTree env bt board s sf ea).status = r.status := by
  rw [runTree, h]

/-- Concrete one-Action tree used to witness C3. -/
def failTreeDoc : BehaviorTreeDoc :=
  { tree := [BTNode.node "Action" "task_node" "failing_skill" [] []] }

/-- Witness for C3: a failing top-level run's FAILED Status, reason and
message "Test failure" reach the runTree caller unchanged. -/
theorem runTree_status_passthrough_witness :
    (runTree failSkillEnv failTreeDoc {} {}).status =
      { status := StatusFlags.FAILED, reason := StatusReason.PROCESS_FAILURE,
        message := "Test failure" } := by
  have h := runTree_status_passthrough failSkillEnv failTreeDoc {} {} [] []
      (runSequence failSkillEnv failTreeDoc.tree
        { log_last_executed_node_name := "", log_last_executed_node_id := [],
          start_from_node_id := [], escape_at_node_id := [] } {} [] 0) rfl
  rw [h]
  rfl

/-- C8: action constructors deep-copy their goal/state argument: an
FKAction constructed from a RobotState object stores a copy whose
observed value equals the goal at construction time, and any caller-side
mutation of the original object afterwards (rebinding its base_state or
mutating the referenced Pose in place) leaves the action's stored goal
unchanged; likewise an IKAction's goal Pose is unaffected by in-place
mutation of the original Pose object. -/
theorem action_goal_deep_copy (h : ObjectHeap) :
    (∀ (stateRef : Nat) (cfg : List (String × DataValue)) (h1 : ObjectHeap)
        (act : FKAction),
      FKAction.construct h stateRef cfg = some (h1, act) →
      h1.readState act.goalRef = h.readState stateRef ∧
      ∀ m : StateMutation,
        (h1.applyMutation stateRef m).readState act.goalRef =
          h1.readState act.goalRef) ∧
    (∀ (poseRef : Nat) (links : List String) (pr : ℚ)
        (cfg : List (String × DataValue)) (h2 : ObjectHeap) (ik : IKAction),
      IKAction.construct h poseRef links pr cfg = some (h2, ik) →
      h2.readPose ik.goalRef = h.readPose poseRef ∧
      ∀ p : Pose, (h2.setPose poseRef p).readPose ik.goalRef =
        h2.readPose ik.goalRef) := by
  constructor
  · intro stateRef cfg h1 act hc
    cases hcell : h.states[stateRef]? with
    | none =>
      simp only [FKAction.construct, hcell] at hc
      exact Option.noConfusion hc
    | some cell =>
      cases hpose : h.poses[cell.poseRef]? with
      | none =>
        simp only [FKAction.construct, hcell, hpose] at hc
        exact Option.noConfusion hc
      | some p =>
        simp only [FKAction.construct, hcell, hpose, Option.some.injEq,
          Prod.mk.injEq] at hc
        obtain ⟨rfl, rfl⟩ := hc
        obtain ⟨hslt, -⟩ := List.getElem?_eq_some.mp hcell
        obtain ⟨hplt, -⟩ := List.getElem?_eq_some.mp hpose
        have hs1 : (h.states ++ [{ cell with poseRef := h.poses.length }])[h.states.length]? =
            some { cell with poseRef := h.poses.length } :=
          List.getElem?_concat_length _ _
        have hp1 : (h.poses ++ [p])[h.poses.length]? = some p :=
          List.getElem?_concat_length _ _
        have hsr : (h.states ++ [{ cell with poseRef := h.poses.length }])[stateRef]? =
            some cell := by
          rw [List.getElem?_append, if_pos hslt]
          exact hcell
        have hR : ObjectHeap.readState
            { poses := h.poses ++ [p],
              states := h.states ++ [{ cell with poseRef := h.poses.length }] }
            h.states.length =
            some { base_state := p, status := cell.status, timesec := cell.timesec } := by
          simp only [ObjectHeap.readState, hs1, hp1]
        constructor
        · rw [hR]
          simp only [ObjectHeap.readState, hcell, hpose]
        · intro m
          cases m with
          | rebindBasePose q =>
            simp only [ObjectHeap.applyMutation, hsr]
            rw [hR]
            have hpp : ((h.poses ++ [p]) ++ [q])[h.poses.length]? = some p := by
              rw [List.getElem?_append, if_pos (by simp), hp1]
            simp only [ObjectHeap.readState,
              List.getElem?_set_ne (Nat.ne_of_lt hslt), hs1, hpp]
          | mutateBasePose q =>
            simp only [ObjectHeap.applyMutation, hsr]
            rw [hR]
            simp only [ObjectHeap.readState, hs1,
              List.getElem?_set_ne (Nat.ne_of_lt hplt), hp1]
  · intro poseRef links pr cfg h2 ik hc
    cases hpose : h.poses[poseRef]? with
    | none =>
      simp only [IKAction.construct, hpose] at hc
      exact Option.noConfusion hc
    | some p =>
      simp only [IKAction.construct, hpose, Option.some.injEq, Prod.mk.injEq] at hc
      obtain ⟨rfl, rfl⟩ := hc
      obtain ⟨hplt, -⟩ := List.getElem?_eq_some.mp hpose
      have hp1 : (h.poses ++ [p])[h.poses.length]? = some p :=
        List.getElem?_concat_length _ _
      constructor
      · simp only [ObjectHeap.readPose, hp1, hpose]
      · intro q
        simp only [ObjectHeap.readPose, ObjectHeap.setPose,
          List.getElem?_set_ne (Nat.ne_of_lt hplt), hp1]

/-- Concrete original Pose of the shipped test_fk_action_goal_copy
fixture. -/
def copyWitnessPose : Pose :=
  { position := { x := 1, y := 2, z := 3 },
    orientation := { x := 0, y := 0, z := 0, w := 1 } }

/-- Concrete heap holding one Pose object and one RobotState object
referencing it, mirroring the shipped test_fk_action_goal_copy fixture. -/
def copyWitnessHeap : ObjectHeap :=
  { poses := [copyWitnessPose],
    states := [{ poseRef := 0, status := { status := StatusFlags.SUCCESS },
                 timesec := none }] }

/-- Concrete heap after FKAction construction: the deep copy occupies the
fresh addresses 1. -/
def copyWitnessHeapAfter : ObjectHeap :=
  { poses := [copyWitnessPose, copyWitnessPose],
    states := [{ poseRef := 0, status := { status := StatusFlags.SUCCESS },
                 timesec := none },
               { poseRef := 1, status := { status := StatusFlags.SUCCESS },
                 timesec := none }] }

/-- Concrete action produced by the witness construction. -/
def copyWitnessAction : FKAction :=
  { solveby_type := SolveByType.FORWARD_KINEMATICS, goalRef := 1, configs := [] }

/-- Concrete replacement Pose used by the witness mutation. -/
def copyWitnessNewPose : Pose :=
  { position := { x := 999, y := 2, z := 3 },
    orientation := { x := 0, y := 0, z := 0, w := 1 } }

/-- Witness for C8: after constructing an FKAction from the heap's
RobotState object and rebinding that object's base_state to a new Pose
with x = 999, the action's stored goal still reads back the original
Pose with x = 1. -/
theorem action_goal_deep_copy_witness :
    (copyWitnessHeapAfter.applyMutation 0
        (StateMutation.rebindBasePose copyWitnessNewPose)).readState 1 =
      some { base_state := copyWitnessPose,
             status := { status := StatusFlags.SUCCESS }, timesec := none } := by
  have hdc := (action_goal_deep_copy copyWitnessHeap).1 0 [] copyWitnessHeapAfter
      copyWitnessAction rfl
  have h2 := hdc.2 (StateMutation.rebindBasePose copyWitnessNewPose)
  exact h2.trans (by decide)

end Tasqsym
